import Mathlib

/-
Verification of the apex-predator-bot scoring and filtering pipeline.

Shallow embedding of the core logic of `src/striker_engine_v3.py`
(StrikerEngineV3: indicator post-processing and the four factor scorers)
and `src/automated_scanner.py` (AutomatedScanner: pre-filters, the
post-scoring overbought filter, the regime threshold policy and the
scan orchestration).

Modelling conventions:
- Python floats are modelled as exact rationals (`ℚ`); the Bollinger-band
  standard deviation, which genuinely takes a square root, is modelled
  over `ℝ` with `Real.sqrt`.
- pandas NaN ("not available") is modelled as `Option.none`; a present
  numeric reading is `Option.some`.
- A JSON field that is missing or null is `Option.none` on the snapshot;
  the source reads such fields with the Python idiom `d.get(k, dflt) or
  dflt`, under which a missing key, an explicit null, and a (falsy) zero
  value all collapse to the default.  `orDefault` reproduces exactly that.
- Network fetches are abstracted as inputs: the scan takes the fetched
  snapshot list, each snapshot paired with the indicator record that the
  per-asset history fetch produced (`none` when the fetch failed or the
  series was too short).  Log strings and report text are not modelled.
-/

set_option maxHeartbeats 1000000

namespace ApexPredator

/-- Technical indicator record produced by
`StrikerEngineV3.calculate_technical_indicators` (src/striker_engine_v3.py
lines 85-95), restricted to the three entries that the scorers and filters
read (`rsi`, `macd_diff`, `bb_position`); the remaining entries (`macd`,
`macd_signal`, the raw bands and `current_price`) are carried only into
report text, which is not modelled.  `none` models a NaN reading. -/
structure TechIndicators where
  rsi : Option ℚ
  macd_diff : Option ℚ
  bb_position : Option ℚ
  deriving DecidableEq

/-- One market snapshot row (a CoinGecko `coins/markets` entry) restricted
to the fields the core reads.  `none` models a missing or null JSON field. -/
structure CoinData where
  symbol : Option String
  price_change_percentage_24h : Option ℚ
  price_change_percentage_7d : Option ℚ
  total_volume : Option ℚ
  market_cap : Option ℚ
  market_cap_rank : Option ℤ
  deriving DecidableEq

/-- Python `coin_data.get(key, dflt) or dflt` on a numeric field:
missing key, null, and a zero value all yield the default
(src/striker_engine_v3.py lines 216-217, 241-242). -/
def orDefault (x : Option ℚ) (d : ℚ) : ℚ :=
  match x with
  | none => d
  | some v => if v = 0 then d else v

/-- Same idiom for the integer market-cap-rank field
(src/striker_engine_v3.py line 261). -/
def orDefaultInt (x : Option ℤ) (d : ℤ) : ℤ :=
  match x with
  | none => d
  | some v => if v = 0 then d else v

/-- RSI component of `StrikerEngineV3.score_technical`
(src/striker_engine_v3.py lines 116-141). -/
def rsiScore (rsi : Option ℚ) : ℤ :=
  match rsi with
  | none => 10
  | some r =>
    if r < 20 then 5
    else if r < 30 then 18
    else if r < 40 then 20
    else if r < 60 then 15
    else if r < 70 then 10
    else if r < 80 then 3
    else 0

/-- MACD component of `StrikerEngineV3.score_technical`
(src/striker_engine_v3.py lines 144-172). -/
def macdScore (macd_diff : Option ℚ) : ℤ :=
  match macd_diff with
  | none => 10
  | some d =>
    if d > 0 then
      if d > 5 then 20
      else if d > 2 then 17
      else 14
    else
      if d < -5 then 5
      else if d < -2 then 8
      else 11

/-- Bollinger-band component of `StrikerEngineV3.score_technical`
(src/striker_engine_v3.py lines 174-198). -/
def bbScore (bb_position : Option ℚ) : ℤ :=
  match bb_position with
  | none => 10
  | some b =>
    if b < 1/5 then 18
    else if b < 2/5 then 20
    else if b < 3/5 then 15
    else if b < 4/5 then 10
    else if b ≤ 1 then 5
    else 3

/-- `StrikerEngineV3.score_technical` (src/striker_engine_v3.py lines
100-200): fixed neutral 30 when no indicator record is available,
otherwise the sum of the three banded components.  The rationale string
the source returns alongside the score is not modelled. -/
def score_technical (ti : Option TechIndicators) : ℤ :=
  match ti with
  | none => 30
  | some t => rsiScore t.rsi + macdScore t.macd_diff + bbScore t.bb_position

/-- Momentum component of `StrikerEngineV3.score_fundamental`
(src/striker_engine_v3.py lines 219-236). -/
def momentumScore (change_24h : ℚ) : ℤ :=
  if change_24h > 20 then 3
  else if 10 < change_24h ∧ change_24h ≤ 20 then 10
  else if 5 < change_24h ∧ change_24h ≤ 10 then 15
  else if 0 < change_24h ∧ change_24h ≤ 5 then 12
  else if -5 ≤ change_24h ∧ change_24h ≤ 0 then 8
  else 5

/-- Volume component of `StrikerEngineV3.score_fundamental`
(src/striker_engine_v3.py lines 241-256). -/
def volumeScore (volume market_cap : ℚ) : ℤ :=
  let volume_to_mcap := if market_cap > 0 then volume / market_cap else 0
  if volume_to_mcap > 1/2 then 10
  else if volume_to_mcap > 1/5 then 8
  else if volume_to_mcap > 1/10 then 6
  else 3

/-- Market-cap-rank component of `StrikerEngineV3.score_fundamental`
(src/striker_engine_v3.py lines 261-274). -/
def rankScore (rank : ℤ) : ℤ :=
  if rank ≤ 50 then 7
  else if rank ≤ 100 then 10
  else if rank ≤ 250 then 8
  else 5

/-- Volatility component of `StrikerEngineV3.score_fundamental`
(src/striker_engine_v3.py lines 280-288). -/
def volatilityScore (change_7d : ℚ) : ℤ :=
  if |change_7d| > 50 then 1
  else if |change_7d| > 25 then 3
  else 5

/-- `StrikerEngineV3.score_fundamental` (src/striker_engine_v3.py lines
202-292).  Missing numeric fields are read through the `get(...) or d`
idiom, not rejected. -/
def score_fundamental (c : CoinData) : ℤ :=
  let change_24h := orDefault c.price_change_percentage_24h 0
  let change_7d := orDefault c.price_change_percentage_7d 0
  let volume := orDefault c.total_volume 0
  let market_cap := orDefault c.market_cap 1
  let rank := orDefaultInt c.market_cap_rank 999
  momentumScore change_24h + volumeScore volume market_cap
    + rankScore rank + volatilityScore change_7d

/-- `StrikerEngineV3.score_catalyst` (src/striker_engine_v3.py lines
294-302): a constant placeholder. -/
def score_catalyst : ℤ := 20

/-- `StrikerEngineV3.score_narrative` (src/striker_engine_v3.py lines
304-312): a constant placeholder. -/
def score_narrative : ℤ := 10

/-- The breakdown record assembled by `StrikerEngineV3.score_coin`
(src/striker_engine_v3.py lines 314-363), restricted to the fields read
by the scanner (scores and the indicator record); the identity and
presentation fields (name, symbol, price, rank, changes, detail strings)
feed only report text. -/
structure OpportunityBreakdown where
  technical_score : ℤ
  fundamental_score : ℤ
  catalyst_score : ℤ
  narrative_score : ℤ
  total_score : ℤ
  technical_indicators : Option TechIndicators
  deriving DecidableEq

/-- `StrikerEngineV3.score_coin` (src/striker_engine_v3.py lines
314-363).  The indicator record `ti` stands for the value of
`calculate_technical_indicators(fetch_historical_prices(id))`, which the
source computes from the network; the running accumulation of
`total_score` is reproduced as in the source. -/
def score_coin (c : CoinData) (ti : Option TechIndicators) :
    ℤ × OpportunityBreakdown :=
  let technical := score_technical ti
  let fundamental := score_fundamental c
  let catalyst := score_catalyst
  let narrative := score_narrative
  let total := 0 + technical + fundamental + catalyst + narrative
  (total,
    { technical_score := technical
      fundamental_score := fundamental
      catalyst_score := catalyst
      narrative_score := narrative
      total_score := total
      technical_indicators := ti })

/-- The fixed stablecoin symbol set of `AutomatedScanner`
(src/automated_scanner.py lines 103-108). -/
def STABLECOINS : List String :=
  ["usdt", "usdc", "dai", "busd", "tusd", "usdp", "gusd", "frax",
   "usdd", "lusd", "susd", "eurs", "usdx", "usds", "fdusd", "pyusd",
   "eurc", "usd1", "usde", "usdy", "usdtb", "cusd", "usdr", "usdj",
   "ustb", "usdf", "usd0", "usda", "ylds", "ust", "flexusd"]

/-- A fetched asset: the snapshot row together with the indicator record
its per-asset history fetch will produce inside `score_coin` (`none` when
the fetch fails or the series has fewer than 26 points). -/
def FetchedCoin : Type := CoinData × Option TechIndicators

instance : DecidableEq FetchedCoin := by
  unfold FetchedCoin
  infer_instance

/-- Python `str.lower()` on a symbol string, written as a character-wise
map (the library `String.toLower` computes the same map through a
byte-position loop). -/
def lowerStr (s : String) : String := ⟨s.data.map Char.toLower⟩

/-- `AutomatedScanner.apply_filters` (src/automated_scanner.py lines
110-152): keeps a snapshot unless it is a stablecoin, moved more than 50%
in 24h, or has volume/market-cap below 0.01.  The 24h-change > 30%
advisory (lines 145-147) only prints a warning and excludes nothing, so
it does not appear in the predicate.  The predicate reads only the
snapshot, never the indicator record. -/
def apply_filters (coins : List FetchedCoin) : List FetchedCoin :=
  coins.filter fun p =>
    let c := p.1
    let symbol := lowerStr (c.symbol.getD "")
    let change_24h := orDefault c.price_change_percentage_24h 0
    let volume := orDefault c.total_volume 0
    let market_cap := orDefault c.market_cap 1
    let volume_to_mcap := if market_cap > 0 then volume / market_cap else 0
    !(STABLECOINS.contains symbol)
      && !(decide (|change_24h| > 50))
      && !(decide (volume_to_mcap < 1/100))

/-- The overbought check of `AutomatedScanner.score_opportunities`
(src/automated_scanner.py lines 169-175): an asset is dropped after
scoring exactly when an indicator record is present, its RSI is not NaN,
and that RSI exceeds 70. -/
def overboughtSkip (b : OpportunityBreakdown) : Bool :=
  match b.technical_indicators with
  | none => false
  | some t =>
    match t.rsi with
    | none => false
    | some r => decide (r > 70)

/-- `AutomatedScanner.score_opportunities` (src/automated_scanner.py
lines 154-185): scores the first `limit` candidates, drops the
overbought ones, and sorts the survivors by total score descending
(Python's stable `sort` with `reverse=True`, modelled by the stable
`List.mergeSort`).  The per-asset exception handler only fires on
network or data errors, which are not modelled. -/
def score_opportunities (coins : List FetchedCoin) (limit : ℕ) :
    List OpportunityBreakdown :=
  let scored := (coins.take limit).map fun p => (score_coin p.1 p.2).2
  let kept := scored.filter fun b => !overboughtSkip b
  kept.mergeSort fun a b => decide (b.total_score ≤ a.total_score)

/-- Market regime values of `AutomatedScanner.get_market_regime`
(src/automated_scanner.py lines 43-67). -/
inductive Regime
  | BEAR
  | NEUTRAL
  | BULL
  | UNKNOWN
  deriving DecidableEq

/-- Regime classification from the Fear and Greed index value
(src/automated_scanner.py lines 52-60); a fetch failure yields UNKNOWN
instead (line 67). -/
def classifyRegime (fng : ℤ) : Regime :=
  if fng < 35 then Regime.BEAR
  else if fng < 65 then Regime.NEUTRAL
  else Regime.BULL

/-- The mutable configuration of an `AutomatedScanner` instance
(src/automated_scanner.py lines 36-39). -/
structure ScannerState where
  top_n : ℕ
  min_score : ℤ
  check_regime : Bool
  deriving DecidableEq

/-- The regime step of `AutomatedScanner.run_scan` (src/automated_scanner.py
lines 260-270): when the regime check is enabled and the regime is BEAR,
the instance attribute `min_score` is overwritten with
`max(min_score, 110)`; in every other case the state is untouched. -/
def applyRegimePolicy (s : ScannerState) (regime : Regime) : ScannerState :=
  if s.check_regime = true ∧ regime = Regime.BEAR then
    { s with min_score := max s.min_score 110 }
  else s

/-- `AutomatedScanner.run_scan` (src/automated_scanner.py lines 250-315):
regime step, abort on an empty fetch, pre-filters, abort on an empty
filtered set, scoring of the top 20 with the overbought drop, and the
final threshold filter against the (possibly raised) `min_score`.
Returns the post-scan scanner state together with the qualified
opportunities (`none` models the aborted scan that returns None). -/
def run_scan (s : ScannerState) (regime : Regime) (coins : List FetchedCoin) :
    ScannerState × Option (List OpportunityBreakdown) :=
  let s1 := applyRegimePolicy s regime
  if coins = [] then (s1, none)
  else
    let filtered := apply_filters coins
    if filtered = [] then (s1, none)
    else
      let scored := score_opportunities filtered 20
      let qualified := scored.filter fun b => decide (s1.min_score ≤ b.total_score)
      (s1, some qualified)

/-- The trailing window of length `n` of a price series, as read by a
pandas `rolling(n)` at the last index. -/
def lastWindow (n : ℕ) (l : List ℚ) : List ℚ := l.drop (l.length - n)

/-- Arithmetic mean of a price list (pandas `rolling(20).mean()` at the
last index over the trailing window). -/
def listMean (l : List ℚ) : ℚ := l.sum / l.length

/-- Population variance of a price list (pandas
`rolling(20).std(ddof=0)` squared, as the `ta` Bollinger implementation
uses). -/
def popVar (l : List ℚ) : ℚ :=
  ((l.map fun x => (x - listMean l) ^ 2).sum) / l.length

/-- The 20-period Bollinger rolling standard deviation at the last index
of the series (src/striker_engine_v3.py lines 76-79 via
`ta.volatility.BollingerBands`, window 20, population std). -/
noncomputable def bollinger_std (l : List ℚ) : ℝ :=
  Real.sqrt ((popVar (lastWindow 20 l) : ℝ))

/-- Bollinger upper band `mavg + 2 * mstd` at the last index
(src/striker_engine_v3.py line 77). -/
noncomputable def bollinger_hband (l : List ℚ) : ℝ :=
  ((listMean (lastWindow 20 l) : ℚ) : ℝ) + 2 * bollinger_std l

/-- Bollinger lower band `mavg - 2 * mstd` at the last index
(src/striker_engine_v3.py line 78). -/
noncomputable def bollinger_lband (l : List ℚ) : ℝ :=
  ((listMean (lastWindow 20 l) : ℚ) : ℝ) - 2 * bollinger_std l

/-- The last price of the series, `df['price'].iloc[-1]`
(src/striker_engine_v3.py line 80); the series is nonempty whenever the
calculator runs (it requires at least 26 points). -/
def currentPrice (l : List ℚ) : ℚ := l.getLastD 0

/-- The `bb_position` expression of
`StrikerEngineV3.calculate_technical_indicators`
(src/striker_engine_v3.py line 83):
`(current_price - bb_lower) / (bb_upper - bb_lower)` when the band width
is positive, `0.5` otherwise. -/
noncomputable def bb_position_of (l : List ℚ) : ℝ :=
  if bollinger_hband l - bollinger_lband l > 0 then
    ((currentPrice l : ℚ) - bollinger_lband l) / (bollinger_hband l - bollinger_lband l)
  else 1 / 2

/-- The Bollinger fragment of
`StrikerEngineV3.calculate_technical_indicators`
(src/striker_engine_v3.py lines 59-98): `none` when the series is shorter
than 26 points, otherwise the triple (upper band, lower band,
bb_position).  The RSI and MACD entries of the returned record are not
needed by any claim about this function and are left out. -/
noncomputable def calculate_technical_indicators_bb (l : List ℚ) :
    Option (ℝ × ℝ × ℝ) :=
  if l.length < 26 then none
  else some (bollinger_hband l, bollinger_lband l, bb_position_of l)

/-- The Bollinger-band score table as the specification's table states
it, word for word: the five in-range bands, a flat 3 for any value
outside [0,1] (below 0 or above 1), and 10 when not available.  This
definition follows the spec's words and exists only to be compared with
`bbScore`, which follows the source. -/
def specBBScore : Option ℚ → ℤ
  | none => 10
  | some b =>
    if b < 0 ∨ b > 1 then 3
    else if b < 1/5 then 18
    else if b < 2/5 then 20
    else if b < 3/5 then 15
    else if b < 4/5 then 10
    else 5

/-- The Bollinger-band score table amended to what the source computes:
every value below 0.2, negative values included, falls in the 18 band,
and only values strictly above 1 score 3. -/
def specBBScoreAmended : Option ℚ → ℤ
  | none => 10
  | some b =>
    if b > 1 then 3
    else if b < 1/5 then 18
    else if b < 2/5 then 20
    else if b < 3/5 then 15
    else if b < 4/5 then 10
    else 5

/-- The six MACD-diff bands exactly as the specification's table states
them, each with its score: >5, (2,5], (0,2], (-2,0], [-5,-2), <-5.
This definition follows the spec's words and exists only to be compared
with `macdScore`, which follows the source. -/
def specMacdBands : List ((ℚ → Bool) × ℤ) :=
  [(fun d => decide (d > 5), 20),
   (fun d => decide (2 < d ∧ d ≤ 5), 17),
   (fun d => decide (0 < d ∧ d ≤ 2), 14),
   (fun d => decide (-2 < d ∧ d ≤ 0), 11),
   (fun d => decide (-5 ≤ d ∧ d < -2), 8),
   (fun d => decide (d < -5), 5)]

/-- The MACD-diff bands amended to what the source computes: the 11 band
is [-2,0], closed on the left, so the boundary value -2 is covered. -/
def amendedMacdBands : List ((ℚ → Bool) × ℤ) :=
  [(fun d => decide (d > 5), 20),
   (fun d => decide (2 < d ∧ d ≤ 5), 17),
   (fun d => decide (0 < d ∧ d ≤ 2), 14),
   (fun d => decide (-2 ≤ d ∧ d ≤ 0), 11),
   (fun d => decide (-5 ≤ d ∧ d < -2), 8),
   (fun d => decide (d < -5), 5)]

/-- Concrete snapshot used in instance proofs: a well-formed non-stable
asset with 24h change 8%, 7d change 10%, volume 60, market cap 100 and
rank 80 (fundamental score 15+10+10+5 = 40). -/
def goodCoin : CoinData :=
  { symbol := some "sol"
    price_change_percentage_24h := some 8
    price_change_percentage_7d := some 10
    total_volume := some 60
    market_cap := some 100
    market_cap_rank := some 80 }

/-- Concrete indicator record with RSI 35, MACD diff 6 and BB position
0.3 (technical score 20+20+20 = 60). -/
def goodTi : TechIndicators :=
  { rsi := some 35, macd_diff := some 6, bb_position := some (3/10) }

/-- Concrete indicator record whose RSI is the NaN marker while MACD
diff 6 and BB position 0.3 are present (technical score 10+20+20 = 50). -/
def tiNoRsiStrong : TechIndicators :=
  { rsi := none, macd_diff := some 6, bb_position := some (3/10) }

/-- Concrete indicator record whose RSI is the NaN marker while MACD
diff 3 and BB position 0.3 are present (technical score 10+17+20 = 47). -/
def tiNoRsiMid : TechIndicators :=
  { rsi := none, macd_diff := some 3, bb_position := some (3/10) }

/-- Concrete snapshot missing the 24h-change, 7d-change and
market-cap-rank numeric fields, with volume 50 and market cap 100
(fundamental score 8+8+5+5 = 26). -/
def missingFieldCoin : CoinData :=
  { symbol := some "abc"
    price_change_percentage_24h := none
    price_change_percentage_7d := none
    total_volume := some 50
    market_cap := some 100
    market_cap_rank := none }

/-- Concrete snapshot missing every numeric field the fundamental scorer
reads. -/
def allMissingCoin : CoinData :=
  { symbol := some "xyz"
    price_change_percentage_24h := none
    price_change_percentage_7d := none
    total_volume := none
    market_cap := none
    market_cap_rank := none }

/-- Concrete 26-point price series whose trailing 20-point window is
eighteen 0s followed by two 10s: window mean 1, population variance 9,
hence bands 1 plus or minus 6 and a last price of 10, above the upper
band. -/
def seriesAboveBand : List ℚ := List.replicate 24 0 ++ [10, 10]

/-! Helper bounds on the individual score bands. -/

theorem rsiScore_bounds (x : Option ℚ) : 0 ≤ rsiScore x ∧ rsiScore x ≤ 20 := by
  rcases x with _ | r
  · simp [rsiScore]
  · simp only [rsiScore]
    split_ifs <;> norm_num

theorem macdScore_bounds (x : Option ℚ) : 5 ≤ macdScore x ∧ macdScore x ≤ 20 := by
  rcases x with _ | d
  · simp [macdScore]
  · simp only [macdScore]
    split_ifs <;> norm_num

theorem bbScore_bounds (x : Option ℚ) : 3 ≤ bbScore x ∧ bbScore x ≤ 20 := by
  rcases x with _ | b
  · simp [bbScore]
  · simp only [bbScore]
    split_ifs <;> norm_num

theorem momentumScore_bounds (c : ℚ) : 3 ≤ momentumScore c ∧ momentumScore c ≤ 15 := by
  simp only [momentumScore]
  split_ifs <;> norm_num

theorem volumeScore_bounds (v m : ℚ) : 3 ≤ volumeScore v m ∧ volumeScore v m ≤ 10 := by
  simp only [volumeScore]
  split_ifs <;> norm_num

theorem rankScore_bounds (r : ℤ) : 5 ≤ rankScore r ∧ rankScore r ≤ 10 := by
  simp only [rankScore]
  split_ifs <;> norm_num

theorem volatilityScore_bounds (c : ℚ) :
    1 ≤ volatilityScore c ∧ volatilityScore c ≤ 5 := by
  simp only [volatilityScore]
  split_ifs <;> norm_num

theorem score_technical_bounds (ti : Option TechIndicators) :
    0 ≤ score_technical ti ∧ score_technical ti ≤ 60 := by
  rcases ti with _ | t
  · simp [score_technical]
  · have h1 := rsiScore_bounds t.rsi
    have h2 := macdScore_bounds t.macd_diff
    have h3 := bbScore_bounds t.bb_position
    simp only [score_technical]
    constructor <;> linarith [h1.1, h1.2, h2.1, h2.2, h3.1, h3.2]

theorem score_technical_lower_of_some (t : TechIndicators) :
    8 ≤ score_technical (some t) := by
  have h1 := rsiScore_bounds t.rsi
  have h2 := macdScore_bounds t.macd_diff
  have h3 := bbScore_bounds t.bb_position
  simp only [score_technical]
  linarith [h1.1, h2.1, h3.1]

theorem score_fundamental_bounds (c : CoinData) :
    12 ≤ score_fundamental c ∧ score_fundamental c ≤ 40 := by
  simp only [score_fundamental]
  have h1 := momentumScore_bounds (orDefault c.price_change_percentage_24h 0)
  have h2 := volumeScore_bounds (orDefault c.total_volume 0) (orDefault c.market_cap 1)
  have h3 := rankScore_bounds (orDefaultInt c.market_cap_rank 999)
  have h4 := volatilityScore_bounds (orDefault c.price_change_percentage_7d 0)
  constructor <;> linarith [h1.1, h1.2, h2.1, h2.2, h3.1, h3.2, h4.1, h4.2]

/-- C2: for every snapshot and every indicator input, the `total_score`
field of the breakdown produced by `score_coin` equals exactly the sum
of its four sub-score fields. -/
theorem claim_total_is_sum_of_subscores (c : CoinData) (ti : Option TechIndicators) :
    (score_coin c ti).2.total_score =
      (score_coin c ti).2.technical_score + (score_coin c ti).2.fundamental_score
        + (score_coin c ti).2.catalyst_score + (score_coin c ti).2.narrative_score := by
  simp only [score_coin]
  ring

/-- C7: each of the four sub-scorers stays inside its documented bound
for every possible input: technical in [0,60] (30 included, every
combination of unavailable individual indicators included), fundamental
in [0,40], catalyst in [0,40], narrative in [0,20]. -/
theorem claim_subscore_bounds (ti : Option TechIndicators) (c : CoinData) :
    (0 ≤ score_technical ti ∧ score_technical ti ≤ 60)
    ∧ (0 ≤ score_fundamental c ∧ score_fundamental c ≤ 40)
    ∧ (0 ≤ score_catalyst ∧ score_catalyst ≤ 40)
    ∧ (0 ≤ score_narrative ∧ score_narrative ≤ 20) := by
  have ht := score_technical_bounds ti
  have hf := score_fundamental_bounds c
  refine ⟨ht, ⟨by linarith [hf.1], hf.2⟩, ?_, ?_⟩ <;> simp [score_catalyst, score_narrative]

/-- C9: every total produced by `score_coin` lies in [50,160]: the
technical component is at least 8 when indicators are available and
exactly 30 when they are not, the fundamental component is at least 12,
and the catalyst and narrative components are the constants 20 and 10. -/
theorem claim_total_lower_bound (c : CoinData) (ti : Option TechIndicators)
    (t : TechIndicators) :
    (50 ≤ (score_coin c ti).1 ∧ (score_coin c ti).1 ≤ 160)
    ∧ 8 ≤ score_technical (some t)
    ∧ score_technical none = 30
    ∧ 12 ≤ score_fundamental c
    ∧ score_catalyst = 20
    ∧ score_narrative = 10 := by
  have hf := score_fundamental_bounds c
  have hts := score_technical_bounds ti
  have htl : 8 ≤ score_technical ti := by
    rcases ti with _ | t0
    · simp [score_technical]
    · exact score_technical_lower_of_some t0
  refine ⟨⟨?_, ?_⟩, score_technical_lower_of_some t, by simp [score_technical],
    hf.1, rfl, rfl⟩
  · simp only [score_coin, score_catalyst, score_narrative]
    linarith [hf.1]
  · simp only [score_coin, score_catalyst, score_narrative]
    linarith [hts.2, hf.2]

/-- C4 counterexample: at bb_position = -1, a value below 0, the source's
scorer lands in the first band of its chain and returns 18, while the
claim's table assigns 3 to every value outside [0,1]; so the claim's
table and the code disagree at -1. -/
theorem claim_bb_table_refuted :
    bbScore (some (-1)) = 18
    ∧ specBBScore (some (-1)) = 3
    ∧ bbScore (some (-1)) ≠ specBBScore (some (-1)) := by
  refine ⟨by norm_num [bbScore], by norm_num [specBBScore], by norm_num [bbScore, specBBScore]⟩

/-- C4 amended: the Bollinger component equals the table with the 3 band
restricted to values strictly above 1; every value below 0.2, negative
values included, scores 18, and a not-available position scores 10. -/
theorem claim_bb_table_amended (x : Option ℚ) : bbScore x = specBBScoreAmended x := by
  rcases x with _ | b
  · rfl
  · simp only [bbScore, specBBScoreAmended]
    split_ifs <;> first | rfl | (exfalso; linarith)

/-- C6 counterexample: the boundary value -2 lies in none of the spec's
six MACD bands — the (-2,0] band is open on the left and the [-5,-2)
band is open on the right — so the bands are not collectively exhaustive
and the claim fails at -2, where the source scores 11. -/
theorem claim_macd_bands_refuted :
    ((specMacdBands.filter fun p => p.1 (-2)).map Prod.snd) = []
    ∧ macdScore (some (-2)) = 11 := by
  constructor
  · norm_num [specMacdBands, List.filter_cons, List.filter_nil]
  · norm_num [macdScore]

/-- C6 amended: with the 11 band closed on the left, [-2,0] instead of
(-2,0], the six MACD bands are mutually exclusive and collectively
exhaustive — every value lies in exactly one band (the filter over the
bands is a singleton) — and the source's score is that band's value; a
not-available diff scores 10. -/
theorem claim_macd_bands_amended (d : ℚ) :
    ((amendedMacdBands.filter fun p => p.1 d).map Prod.snd) = [macdScore (some d)]
    ∧ macdScore none = 10 := by
  refine ⟨?_, rfl⟩
  rcases lt_or_le 5 d with h5 | h5
  · have h0 : 0 < d := by linarith
    have h2 : 2 < d := by linarith
    have hA : ¬ d ≤ 5 := by linarith
    have hB : ¬ d ≤ 2 := by linarith
    have hC : ¬ d ≤ 0 := by linarith
    have hD : ¬ d < -2 := by linarith
    have hE : ¬ d < -5 := by linarith
    simp [amendedMacdBands, macdScore, List.filter_cons, h5, h0, h2, hA, hB, hC, hD, hE]
  · rcases lt_or_le 2 d with h2 | h2
    · have h0 : 0 < d := by linarith
      have hA : ¬ 5 < d := by linarith
      have hB : ¬ d ≤ 2 := by linarith
      have hC : ¬ d ≤ 0 := by linarith
      have hD : ¬ d < -2 := by linarith
      have hE : ¬ d < -5 := by linarith
      simp [amendedMacdBands, macdScore, List.filter_cons, h5, h2, h0, hA, hB, hC, hD, hE]
    · rcases lt_or_le 0 d with h0 | h0
      · have hA : ¬ 5 < d := by linarith
        have hB : ¬ 2 < d := by linarith
        have hC : ¬ d ≤ 0 := by linarith
        have hD : ¬ d < -2 := by linarith
        have hE : ¬ d < -5 := by linarith
        simp [amendedMacdBands, macdScore, List.filter_cons, h5, h2, h0, hA, hB, hC, hD, hE]
      · rcases le_or_lt (-2) d with hm2 | hm2
        · have hA : ¬ 5 < d := by linarith
          have hB : ¬ 2 < d := by linarith
          have hC : ¬ 0 < d := by linarith
          have hD : ¬ d < -2 := by linarith
          have hE : ¬ d < -5 := by linarith
          simp [amendedMacdBands, macdScore, List.filter_cons, h0, hm2, hA, hB, hC, hD, hE]
        · rcases le_or_lt (-5) d with hm5 | hm5
          · have hA : ¬ 5 < d := by linarith
            have hB : ¬ 2 < d := by linarith
            have hC : ¬ 0 < d := by linarith
            have hD : ¬ (-2) ≤ d := by linarith
            have hE : ¬ d < -5 := by linarith
            simp [amendedMacdBands, macdScore, List.filter_cons, h0, hm2, hm5, hA, hB, hC, hD, hE]
          · have hA : ¬ 5 < d := by linarith
            have hB : ¬ 2 < d := by linarith
            have hC : ¬ 0 < d := by linarith
            have hD : ¬ (-2) ≤ d := by linarith
            have hE : ¬ (-5) ≤ d := by linarith
            have hF : d < -2 := by linarith
            simp [amendedMacdBands, macdScore, List.filter_cons, hm5, hF, hA, hB, hC, hD, hE]

/-- C8 counterexample: a snapshot missing the 24h-change, 7d-change and
market-cap-rank numeric fields is not skipped — it is scored through the
defaulting reads and its breakdown appears in the scan result (here with
total 116 against threshold 95). -/
theorem claim_missing_fields_refuted :
    missingFieldCoin.price_change_percentage_24h = none
    ∧ missingFieldCoin.price_change_percentage_7d = none
    ∧ missingFieldCoin.market_cap_rank = none
    ∧ (score_coin missingFieldCoin (some goodTi)).2 ∈
        ((run_scan ⟨250, 95, true⟩ Regime.NEUTRAL
          [(missingFieldCoin, some goodTi)]).2.getD []) := by
  refine ⟨rfl, rfl, rfl, ?_⟩
  have h1 : apply_filters [(missingFieldCoin, some goodTi)]
      = [(missingFieldCoin, some goodTi)] := by
    have hsym : lowerStr "abc" ∉ STABLECOINS := by decide
    norm_num [apply_filters, missingFieldCoin, orDefault, List.filter_cons,
      List.filter_nil, hsym]
  have h2 : overboughtSkip (score_coin missingFieldCoin (some goodTi)).2 = false := by
    norm_num [overboughtSkip, score_coin, goodTi]
  have h3 : (score_coin missingFieldCoin (some goodTi)).2.total_score = 116 := by
    norm_num [score_coin, score_technical, score_fundamental, score_catalyst,
      score_narrative, rsiScore, macdScore, bbScore, momentumScore, volumeScore,
      rankScore, volatilityScore, orDefault, orDefaultInt, missingFieldCoin, goodTi]
  simp only [run_scan, applyRegimePolicy, score_opportunities]
  simp [h1, h2, h3, List.mergeSort_singleton]

/-- C8 amended: a snapshot missing required numeric fields is not
skipped; the fields are read through the defaulting idiom (24h and 7d
change to 0, volume to 0, market cap to 1, rank to 999) and the asset is
scored normally — with all of them missing the fundamental score is
8 + 3 + 5 + 5 = 21 — and such an asset can appear in the ScanResult. -/
theorem claim_missing_fields_amended (c : CoinData)
    (h24 : c.price_change_percentage_24h = none)
    (h7 : c.price_change_percentage_7d = none)
    (hv : c.total_volume = none)
    (hm : c.market_cap = none)
    (hr : c.market_cap_rank = none) :
    score_fundamental c = 21 := by
  norm_num [score_fundamental, h24, h7, hv, hm, hr, orDefault, orDefaultInt,
    momentumScore, volumeScore, rankScore, volatilityScore]

/-- C8 amended claim at a concrete input: the all-missing snapshot gets
fundamental score 21. -/
theorem claim_missing_fields_amended_instance :
    allMissingCoin.price_change_percentage_24h = none
    ∧ allMissingCoin.price_change_percentage_7d = none
    ∧ allMissingCoin.total_volume = none
    ∧ allMissingCoin.market_cap = none
    ∧ allMissingCoin.market_cap_rank = none
    ∧ score_fundamental allMissingCoin = 21 :=
  ⟨rfl, rfl, rfl, rfl, rfl,
    claim_missing_fields_amended allMissingCoin rfl rfl rfl rfl rfl⟩

/-! General characterization of a scan run, shared by the claims about
the orchestrated pipeline. -/

theorem run_scan_fst (s : ScannerState) (r : Regime) (coins : List FetchedCoin) :
    (run_scan s r coins).1 = applyRegimePolicy s r := by
  simp only [run_scan]
  split_ifs <;> rfl

theorem run_scan_result_spec (s : ScannerState) (r : Regime)
    (coins : List FetchedCoin) (b : OpportunityBreakdown) :
    b ∈ (run_scan s r coins).2.getD [] ↔
      coins ≠ []
      ∧ apply_filters coins ≠ []
      ∧ b ∈ ((apply_filters coins).take 20).map (fun p => (score_coin p.1 p.2).2)
      ∧ overboughtSkip b = false
      ∧ (applyRegimePolicy s r).min_score ≤ b.total_score := by
  simp only [run_scan, score_opportunities]
  rcases eq_or_ne coins [] with hc | hc
  · simp [hc]
  · rcases eq_or_ne (apply_filters coins) [] with hf | hf
    · simp [hc, hf]
    · simp [hc, hf, List.mem_filter, List.mem_mergeSort, Bool.not_eq_true',
        and_assoc, and_comm, and_left_comm]

/-- C5 counterexample: a BEAR scan on a scanner configured with
min_score 95 leaves the instance's min_score at 110 after the scan — the
raise is persisted, not scoped to the scan — so a following NEUTRAL scan
runs against 110, not against the originally configured 95. -/
theorem claim_regime_ratchet_refuted :
    (run_scan ⟨250, 95, true⟩ Regime.BEAR []).1.min_score = 110
    ∧ (run_scan ⟨250, 95, true⟩ Regime.BEAR []).1.min_score ≠ 95
    ∧ (run_scan (run_scan ⟨250, 95, true⟩ Regime.BEAR []).1
        Regime.NEUTRAL []).1.min_score = 110 := by
  norm_num [run_scan, applyRegimePolicy]

/-- C5 amended: with the regime check enabled, a BEAR scan uses the
threshold max(configured, 110) — every qualified breakdown meets it —
and that raise is written into the scanner state, so it persists: a
subsequent scan under any regime starts from the raised value, while
NEUTRAL, BULL and UNKNOWN scans themselves leave the state untouched. -/
theorem claim_regime_ratchet_amended (s : ScannerState)
    (coins coins2 : List FetchedCoin) (b : OpportunityBreakdown)
    (h : s.check_regime = true) :
    (run_scan s Regime.BEAR coins).1.min_score = max s.min_score 110
    ∧ (b ∈ (run_scan s Regime.BEAR coins).2.getD [] →
        max s.min_score 110 ≤ b.total_score)
    ∧ (run_scan s Regime.NEUTRAL coins).1 = s
    ∧ (run_scan s Regime.BULL coins).1 = s
    ∧ (run_scan s Regime.UNKNOWN coins).1 = s
    ∧ (run_scan (run_scan s Regime.BEAR coins).1 Regime.NEUTRAL coins2).1.min_score
        = max s.min_score 110 := by
  have hbear : applyRegimePolicy s Regime.BEAR
      = { s with min_score := max s.min_score 110 } := by
    simp [applyRegimePolicy, h]
  refine ⟨?_, ?_, ?_, ?_, ?_, ?_⟩
  · rw [run_scan_fst, hbear]
  · intro hb
    have := ((run_scan_result_spec s Regime.BEAR coins b).mp hb).2.2.2.2
    rwa [hbear] at this
  · rw [run_scan_fst]; simp [applyRegimePolicy]
  · rw [run_scan_fst]; simp [applyRegimePolicy]
  · rw [run_scan_fst]; simp [applyRegimePolicy]
  · rw [run_scan_fst, run_scan_fst, hbear]
    simp [applyRegimePolicy]

/-- C5 amended claim at a concrete input: a BEAR scan on configured
threshold 95 with the regime check enabled yields post-state threshold
max 95 110 = 110, NEUTRAL leaves the state unchanged, and the follow-up
NEUTRAL scan starts from 110. -/
theorem claim_regime_ratchet_amended_instance :
    (⟨250, 95, true⟩ : ScannerState).check_regime = true
    ∧ (run_scan ⟨250, 95, true⟩ Regime.BEAR []).1.min_score = max 95 110
    ∧ (run_scan ⟨250, 95, true⟩ Regime.NEUTRAL []).1 = (⟨250, 95, true⟩ : ScannerState)
    ∧ (run_scan (run_scan ⟨250, 95, true⟩ Regime.BEAR []).1 Regime.NEUTRAL []).1.min_score
        = max 95 110 := by
  have h := claim_regime_ratchet_amended ⟨250, 95, true⟩ [] []
    (OpportunityBreakdown.mk 0 0 0 0 0 none) rfl
  exact ⟨rfl, h.1, h.2.2.1, h.2.2.2.2.2⟩

/-- C1: every breakdown appearing in a scan result carries an indicator
record whose RSI, when it is a number, is at most 70 — an asset scored
with available indicators and RSI above 70 is dropped after scoring and
never appears in the ScanResult, whatever its total score and whatever
the qualification threshold. -/
theorem claim_rsi_filter_authoritative (s : ScannerState) (regime : Regime)
    (coins : List FetchedCoin) (b : OpportunityBreakdown)
    (hb : b ∈ (run_scan s regime coins).2.getD [])
    (t : TechIndicators) (ht : b.technical_indicators = some t)
    (r : ℚ) (hr : t.rsi = some r) : ¬ 70 < r := by
  have hskip : overboughtSkip b = false :=
    ((run_scan_result_spec s regime coins b).mp hb).2.2.2.1
  intro hgt
  obtain ⟨b1, b2, b3, b4, b5, tio⟩ := b
  change tio = some t at ht
  subst ht
  obtain ⟨trsi, tmd, tbb⟩ := t
  change trsi = some r at hr
  subst hr
  simp only [overboughtSkip, decide_eq_false_iff_not] at hskip
  exact hskip hgt

/-- C1 at a concrete input: a scan whose sole candidate has RSI 35 keeps
that asset in the result, and the theorem applied to it yields 35 ≤ 70. -/
theorem claim_rsi_filter_authoritative_instance :
    (score_coin goodCoin (some goodTi)).2 ∈
      ((run_scan ⟨250, 95, true⟩ Regime.NEUTRAL [(goodCoin, some goodTi)]).2.getD [])
    ∧ ¬ (70 : ℚ) < 35 := by
  have hfil : apply_filters [(goodCoin, some goodTi)] = [(goodCoin, some goodTi)] := by
    have hsym : lowerStr "sol" ∉ STABLECOINS := by decide
    norm_num [apply_filters, goodCoin, orDefault, List.filter_cons, List.filter_nil, hsym]
  have hb : (score_coin goodCoin (some goodTi)).2 ∈
      ((run_scan ⟨250, 95, true⟩ Regime.NEUTRAL [(goodCoin, some goodTi)]).2.getD []) := by
    rw [run_scan_result_spec]
    refine ⟨by simp, by rw [hfil]; simp, ?_, ?_, ?_⟩
    · rw [hfil]; simp
    · norm_num [overboughtSkip, score_coin, goodTi]
    · have htot : (score_coin goodCoin (some goodTi)).2.total_score = 130 := by
        norm_num [score_coin, score_technical, score_fundamental, score_catalyst,
          score_narrative, rsiScore, macdScore, bbScore, momentumScore, volumeScore,
          rankScore, volatilityScore, orDefault, orDefaultInt, goodCoin, goodTi]
      rw [htot]
      simp [applyRegimePolicy]
  exact ⟨hb, claim_rsi_filter_authoritative _ _ _ _ hb goodTi rfl 35 rfl⟩

/-- C10 counterexample: an indicator record whose RSI is the NaN marker
but whose MACD diff (3) and BB position (0.3) are present is scored
10 + 17 + 20 = 47, not the fixed neutral 30 the claim asserts for every
asset with a not-available RSI. -/
theorem claim_na_immunity_refuted :
    tiNoRsiMid.rsi = none
    ∧ score_technical (some tiNoRsiMid) = 47
    ∧ score_technical (some tiNoRsiMid) ≠ 30 := by
  refine ⟨rfl, ?_, ?_⟩ <;>
    norm_num [score_technical, rsiScore, macdScore, bbScore, tiNoRsiMid]

/-- C10 amended: an asset whose indicator record is unavailable, or
whose RSI is the NaN marker, is never excluded by the post-scoring
overbought filter; the technical score is the fixed 30 exactly in the
unavailable case, while with a record present and RSI NaN the RSI
component contributes the neutral 10 and MACD and BB are scored
normally; when such an asset reaches scoring and its total meets the
effective threshold, its breakdown appears in the ScanResult. -/
theorem claim_na_immunity_amended (s : ScannerState) (regime : Regime)
    (coins : List FetchedCoin) (c : CoinData) (ti : Option TechIndicators)
    (h1 : (c, ti) ∈ (apply_filters coins).take 20)
    (h2 : ti = none ∨ ∃ t, ti = some t ∧ t.rsi = none)
    (h3 : (applyRegimePolicy s regime).min_score ≤ (score_coin c ti).1) :
    overboughtSkip (score_coin c ti).2 = false
    ∧ score_technical none = 30
    ∧ (∀ t, ti = some t → score_technical ti
        = 10 + macdScore t.macd_diff + bbScore t.bb_position)
    ∧ (score_coin c ti).2 ∈ (run_scan s regime coins).2.getD [] := by
  have hskip : overboughtSkip (score_coin c ti).2 = false := by
    rcases h2 with h2 | ⟨t, ht, hrsi⟩
    · subst h2; rfl
    · subst ht
      obtain ⟨trsi, tmd, tbb⟩ := t
      change trsi = none at hrsi
      subst hrsi
      rfl
  refine ⟨hskip, rfl, ?_, ?_⟩
  · intro t ht
    subst ht
    obtain ⟨trsi, tmd, tbb⟩ := t
    rcases h2 with h2 | ⟨t', ht', hrsi⟩
    · exact absurd h2 (by simp)
    · obtain rfl : t' = ⟨trsi, tmd, tbb⟩ := by
        injection ht'.symm
      change trsi = none at hrsi
      subst hrsi
      rfl
  · have hfne : apply_filters coins ≠ [] := by
      intro hf
      rw [hf] at h1
      simp at h1
    have hcne : coins ≠ [] := by
      intro hc
      subst hc
      exact hfne rfl
    rw [run_scan_result_spec]
    refine ⟨hcne, hfne, ?_, hskip, ?_⟩
    · exact List.mem_map_of_mem (fun p => (score_coin p.1 p.2).2) h1
    · have : (score_coin c ti).2.total_score = (score_coin c ti).1 := rfl
      rw [this]
      exact h3

/-- C10 amended claim at a concrete input: the sole candidate has a
record with fields MACD diff 6, BB position 0.3, and a NaN RSI; it
survives the overbought filter, scores technical 10 + 20 + 20 = 50 and
total 120 against effective threshold 95, and its breakdown is in the
result. -/
theorem claim_na_immunity_amended_instance :
    ((goodCoin, some tiNoRsiStrong) : FetchedCoin) ∈
      (apply_filters [(goodCoin, some tiNoRsiStrong)]).take 20
    ∧ ((applyRegimePolicy ⟨250, 95, true⟩ Regime.NEUTRAL).min_score
        ≤ (score_coin goodCoin (some tiNoRsiStrong)).1)
    ∧ overboughtSkip (score_coin goodCoin (some tiNoRsiStrong)).2 = false
    ∧ (score_coin goodCoin (some tiNoRsiStrong)).2 ∈
        (run_scan ⟨250, 95, true⟩ Regime.NEUTRAL
          [(goodCoin, some tiNoRsiStrong)]).2.getD [] := by
  have hfil : apply_filters [(goodCoin, some tiNoRsiStrong)]
      = [(goodCoin, some tiNoRsiStrong)] := by
    have hsym : lowerStr "sol" ∉ STABLECOINS := by decide
    norm_num [apply_filters, goodCoin, orDefault, List.filter_cons, List.filter_nil, hsym]
  have h1 : ((goodCoin, some tiNoRsiStrong) : FetchedCoin) ∈
      (apply_filters [(goodCoin, some tiNoRsiStrong)]).take 20 := by
    rw [hfil]; simp
  have h3 : (applyRegimePolicy ⟨250, 95, true⟩ Regime.NEUTRAL).min_score
      ≤ (score_coin goodCoin (some tiNoRsiStrong)).1 := by
    have htot : (score_coin goodCoin (some tiNoRsiStrong)).1 = 120 := by
      norm_num [score_coin, score_technical, score_fundamental, score_catalyst,
        score_narrative, rsiScore, macdScore, bbScore, momentumScore, volumeScore,
        rankScore, volatilityScore, orDefault, orDefaultInt, goodCoin, tiNoRsiStrong]
    rw [htot]
    simp [applyRegimePolicy]
  have h := claim_na_immunity_amended ⟨250, 95, true⟩ Regime.NEUTRAL
    [(goodCoin, some tiNoRsiStrong)] goodCoin (some tiNoRsiStrong)
    h1 (Or.inr ⟨tiNoRsiStrong, rfl, rfl⟩) h3
  exact ⟨h1, h3, h.1, h.2.2.2⟩

/-! Concrete Bollinger computations on the 26-point series whose last
price sits above the upper band. -/

theorem seriesAboveBand_window :
    lastWindow 20 seriesAboveBand = List.replicate 18 (0:ℚ) ++ [10, 10] := by
  decide

theorem seriesAboveBand_mean : listMean (lastWindow 20 seriesAboveBand) = 1 := by
  rw [seriesAboveBand_window]
  norm_num [listMean, List.sum_append, List.sum_replicate]

theorem seriesAboveBand_var : popVar (lastWindow 20 seriesAboveBand) = 9 := by
  rw [seriesAboveBand_window]
  norm_num [popVar, listMean, List.sum_append, List.sum_replicate,
    List.map_append, List.map_replicate]

theorem seriesAboveBand_std : bollinger_std seriesAboveBand = 3 := by
  rw [bollinger_std, seriesAboveBand_var]
  rw [show ((9:ℚ):ℝ) = 3^2 by norm_num]
  exact Real.sqrt_sq (by norm_num)

theorem seriesAboveBand_hband : bollinger_hband seriesAboveBand = 7 := by
  rw [bollinger_hband, seriesAboveBand_std, seriesAboveBand_mean]
  norm_num

theorem seriesAboveBand_lband : bollinger_lband seriesAboveBand = -5 := by
  rw [bollinger_lband, seriesAboveBand_std, seriesAboveBand_mean]
  norm_num

theorem seriesAboveBand_calc :
    calculate_technical_indicators_bb seriesAboveBand = some (7, -5, 5/4) := by
  have hlen : seriesAboveBand.length = 26 := by decide
  have hcp : currentPrice seriesAboveBand = 10 := by decide
  have hpos : bb_position_of seriesAboveBand = 5/4 := by
    rw [bb_position_of, seriesAboveBand_hband, seriesAboveBand_lband, hcp]
    rw [if_pos (by norm_num : (7:ℝ) - (-5) > 0)]
    norm_num
  rw [calculate_technical_indicators_bb, if_neg (by rw [hlen]; norm_num),
    seriesAboveBand_hband, seriesAboveBand_lband, hpos]

/-- C3 counterexample: on a 26-point series (so the indicator calculator
succeeds) whose last price 10 lies above the upper band 7, the computed
bb_position is 5/4 although bb_upper > bb_lower — the value is not
confined to [0,1]. -/
theorem claim_bb_position_range_refuted :
    calculate_technical_indicators_bb seriesAboveBand = some (7, -5, 5/4)
    ∧ ((7:ℝ) > -5)
    ∧ ¬ ((5/4 : ℝ) ≤ 1) := by
  refine ⟨seriesAboveBand_calc, by norm_num, by norm_num⟩

/-- C3 amended: whenever the indicator calculator succeeds, the band
width is nonnegative, bb_position equals
(current_price - bb_lower) / (bb_upper - bb_lower) whenever the width is
positive, equals exactly 0.5 when the bands coincide, and lies in [0,1]
whenever the width is positive and the current price lies between the
bands — outside that price range the quotient can leave [0,1]. -/
theorem claim_bb_position_amended (l : List ℚ) (u lo p : ℝ)
    (h : calculate_technical_indicators_bb l = some (u, lo, p)) :
    lo ≤ u
    ∧ (u - lo > 0 → p = ((currentPrice l : ℝ) - lo) / (u - lo))
    ∧ (u = lo → p = 1/2)
    ∧ (u - lo > 0 → lo ≤ (currentPrice l : ℝ) → (currentPrice l : ℝ) ≤ u →
        0 ≤ p ∧ p ≤ 1) := by
  rw [calculate_technical_indicators_bb] at h
  by_cases hl : l.length < 26
  · rw [if_pos hl] at h
    exact absurd h (by simp)
  · rw [if_neg hl] at h
    obtain ⟨hu, hlo, hp⟩ : bollinger_hband l = u ∧ bollinger_lband l = lo
        ∧ bb_position_of l = p := by
      simpa [Prod.ext_iff] using h
    subst hu
    subst hlo
    subst hp
    have hstd : (0:ℝ) ≤ bollinger_std l := Real.sqrt_nonneg _
    have hwidth : bollinger_hband l - bollinger_lband l = 4 * bollinger_std l := by
      rw [bollinger_hband, bollinger_lband]
      ring
    refine ⟨?_, ?_, ?_, ?_⟩
    · rw [bollinger_hband, bollinger_lband]
      linarith
    · intro hw
      rw [bb_position_of, if_pos hw]
    · intro heq
      have hz : ¬ (bollinger_hband l - bollinger_lband l > 0) := by
        rw [heq]
        simp
      rw [bb_position_of, if_neg hz]
    · intro hw hlow hhigh
      rw [bb_position_of, if_pos hw]
      constructor
      · apply div_nonneg <;> linarith
      · rw [div_le_one hw]
        linarith

/-- C3 amended claim at a concrete input: the calculator succeeds on the
26-point series with bands 7 and -5, and the theorem applied there gives
-5 ≤ 7 together with the formula value 5/4 for the position. -/
theorem claim_bb_position_amended_instance :
    calculate_technical_indicators_bb seriesAboveBand = some (7, -5, 5/4)
    ∧ (-5 : ℝ) ≤ 7
    ∧ ((7:ℝ) - (-5) > 0 →
        (5/4 : ℝ) = ((currentPrice seriesAboveBand : ℝ) - (-5)) / (7 - (-5))) := by
  have h := claim_bb_position_amended seriesAboveBand 7 (-5) (5/4) seriesAboveBand_calc
  exact ⟨seriesAboveBand_calc, h.1, h.2.1⟩

end ApexPredator
